import Mathlib

/-!
Verification of the content-classification engine of `Summarizer.py`
(functions `get_file_brief`, `truncate_text`, `analyze_file_content`).

Strings are modelled as `List Char` (`Str`), file contents as the decoded
text already read under the tolerant policy; a failed read is an
`Except.error` input.  The Python regular expressions used by the engine
are embedded as bespoke matchers, one per concrete pattern, reproducing
the leftmost-match / greedy / lazy semantics of each pattern as used.
-/

namespace Summarizer

/-- Character-list strings, following Python's `str` as a sequence of chars. -/
abbrev Str := List Char

/-- Coercion helper turning a Lean string literal into a `Str`. -/
def str (s : String) : Str := s.data

/-- Python whitespace for `str.strip()` / `\s` (ASCII part). -/
def pyIsSpace (c : Char) : Bool :=
  c == ' ' || c == '\t' || c == '\n' || c == '\r' || c == '\x0b' || c == '\x0c'

/-- Python `str.strip()` with no argument: remove leading and trailing whitespace. -/
def pyStrip (s : Str) : Str :=
  ((s.dropWhile pyIsSpace).reverse.dropWhile pyIsSpace).reverse

/-- Python `str.strip(c)` for a single character argument (used for `strip('#')`). -/
def pyStripChar (c : Char) (s : Str) : Str :=
  ((s.dropWhile (· == c)).reverse.dropWhile (· == c)).reverse

/-- Python `str.lower()` (ASCII case folding as used by the engine). -/
def pyLower (s : Str) : Str := s.map Char.toLower

/-- Python `content.split('\n')`: pure split on newline; an empty string
yields one empty segment. -/
def pySplitNl : Str → List Str
  | [] => [[]]
  | c :: rest =>
    match pySplitNl rest with
    | [] => [[]]
    | l :: ls => if c = '\n' then [] :: l :: ls else (c :: l) :: ls

/-- Python `sep.join(xs)`. -/
def joinSep (sep : Str) : List Str → Str
  | [] => []
  | [x] => x
  | x :: y :: xs => x ++ sep ++ joinSep sep (y :: xs)

/-- Python substring test `needle in hay`. -/
def isSubstr (needle : Str) : Str → Bool
  | [] => needle.isPrefixOf []
  | s@(_ :: rest) => needle.isPrefixOf s || isSubstr needle rest

/-- Length of the maximal `\s` run at the head of `s`. -/
def wsRun (s : Str) : Nat := (s.takeWhile pyIsSpace).length

/-- Characters matched by `.` (anything but newline) up to the end of line. -/
def takeToNl (s : Str) : Str := s.takeWhile (· != '\n')

/-- Python `\w` word characters (ASCII part, as used on the source inputs). -/
def isWordChar (c : Char) : Bool := c.isAlphanum || c == '_'

/-- Prefix of `s` strictly before the first occurrence of `sep`
(the whole of `s` when `sep` does not occur): Python `s.split(sep)[0]`. -/
def takeToSub (sep : Str) : Str → Str
  | [] => []
  | s@(c :: rest) => if sep.isPrefixOf s then [] else c :: takeToSub sep rest

/-- Suffix of `s` strictly after the first occurrence of `pat`, when it occurs. -/
def subSplit (pat : Str) : Str → Option Str
  | [] => if pat = [] then some [] else none
  | s@(_ :: rest) => if pat.isPrefixOf s then some (s.drop pat.length) else subSplit pat rest

/-- Prefix of `s` strictly before the first occurrence of `pat`, when it occurs. -/
def subBefore (pat : Str) : Str → Option Str
  | [] => if pat = [] then some [] else none
  | s@(c :: rest) =>
    if pat.isPrefixOf s then some [] else (subBefore pat rest).map (c :: ·)

/-- Case-insensitive literal-prefix test (`re.IGNORECASE` literals). -/
def ciPrefixOf (pat s : Str) : Bool :=
  (pyLower pat).isPrefixOf (pyLower (s.take pat.length))

/-- Count of non-overlapping occurrences of `needle` (fuel-driven scan),
the length of `re.findall` on a literal pattern. -/
def countSubGo (needle : Str) : Nat → Str → Nat
  | 0, _ => 0
  | _ + 1, [] => 0
  | fuel + 1, s@(_ :: rest) =>
    if needle ≠ [] ∧ needle.isPrefixOf s then countSubGo needle fuel (s.drop needle.length) + 1
    else countSubGo needle fuel rest

/-- Count of non-overlapping occurrences of `needle` in `s`. -/
def countSub (needle s : Str) : Nat := countSubGo needle s.length s

/-- Decimal digits of a natural number (fuel-driven). -/
def natToStrGo : Nat → Nat → Str
  | 0, _ => []
  | fuel + 1, n =>
    if n < 10 then [Nat.digitChar n]
    else natToStrGo fuel (n / 10) ++ [Nat.digitChar (n % 10)]

/-- Python `str(n)` for a natural number. -/
def natToStr (n : Nat) : Str := natToStrGo (n + 1) n

/-- Python `str(i)` for an integer. -/
def intToStr (i : Int) : Str :=
  if i < 0 then '-' :: natToStr (-i).toNat else natToStr i.toNat

/-- Distinct elements of a list, keeping the last occurrence of each;
only its length (Python `len(set(xs))`) is used. -/
def dedupKeepLast : List Str → List Str
  | [] => []
  | x :: xs => if x ∈ xs then dedupKeepLast xs else x :: dedupKeepLast xs

/-- Generic `re.search`: try the matcher at every start position, leftmost first
(including the empty position at the end, which no embedded pattern matches). -/
def reSearchPos {α : Type} (matchAt : Str → Option α) : Str → Option α
  | [] => matchAt []
  | s@(_ :: rest) => (matchAt s).orElse (fun _ => reSearchPos matchAt rest)

/-- Generic `re.search` for a `re.MULTILINE` `^`-anchored pattern: try the
matcher at every line-start position, leftmost first. -/
def reSearchLSGo {α : Type} (matchAt : Str → Option α) : Bool → Str → Option α
  | _, [] => none
  | atLS, s@(c :: rest) =>
    (if atLS then matchAt s else none).orElse (fun _ => reSearchLSGo matchAt (c == '\n') rest)

/-- Search a multiline `^`-anchored pattern from the start of the string. -/
def reSearchLS {α : Type} (matchAt : Str → Option α) (s : Str) : Option α :=
  reSearchLSGo matchAt true s

/-- Whether the position right before the suffix of length `afterLen` is a
line start (the previously consumed character was a newline). -/
def nlBefore (s : Str) (afterLen : Nat) : Bool :=
  match s.drop (s.length - afterLen - 1) with
  | d :: _ => d == '\n'
  | [] => false

/-- Generic `re.findall`: scan left to right, emit each non-overlapping match
(the matcher returns the capture and the remaining suffix after the match),
tracking whether the current position is a line start for `^` anchors. -/
def reFindGo {α : Type} (matchAt : Bool → Str → Option (α × Str)) :
    Nat → Bool → Str → List α
  | 0, _, _ => []
  | _ + 1, _, [] => []
  | fuel + 1, atLS, s@(c :: rest) =>
    match matchAt atLS s with
    | some (cap, after) =>
      if after.length < s.length then
        cap :: reFindGo matchAt fuel (nlBefore s after.length) after
      else cap :: reFindGo matchAt fuel (c == '\n') rest
    | none => reFindGo matchAt fuel (c == '\n') rest

/-- `re.findall` for a `re.MULTILINE` `^`-anchored pattern. -/
def reFindallLS (matchAt : Str → Option (Str × Str)) (s : Str) : List Str :=
  reFindGo (fun atLS t => if atLS then matchAt t else none) (s.length + 1) true s

/-- `re.findall` for an unanchored pattern. -/
def reFindallAny (matchAt : Str → Option (Str × Str)) (s : Str) : List Str :=
  reFindGo (fun _ t => matchAt t) (s.length + 1) true s

/-- Matcher for `(.+)` at the current position: requires a first non-newline
character and greedily captures to the end of the line; returns the capture
and the remaining suffix. -/
def dotPlusAtR (s : Str) : Option (Str × Str) :=
  match s with
  | c :: _ => if c = '\n' then none else some (takeToNl s, s.dropWhile (· != '\n'))
  | [] => none

/-- Backtracking for `\s+(.+)`: try consuming `k` whitespace characters for the
largest workable `k ≥ 1` (greedy `\s+`, which may span newlines, then `(.+)`). -/
def wsPlusGoR (s : Str) : Nat → Option (Str × Str)
  | 0 => none
  | k + 1 => (dotPlusAtR (s.drop (k + 1))).orElse (fun _ => wsPlusGoR s k)

/-- Matcher for `\s+(.+)` at the current position. -/
def wsPlusDotR (s : Str) : Option (Str × Str) := wsPlusGoR s (wsRun s)

/-- Backtracking for `\s*(.+)`: like `wsPlusGoR` but `k = 0` is allowed. -/
def wsStarGoR (s : Str) : Nat → Option (Str × Str)
  | 0 => dotPlusAtR s
  | k + 1 => (dotPlusAtR (s.drop (k + 1))).orElse (fun _ => wsStarGoR s k)

/-- Matcher for `\s*(.+)` at the current position. -/
def wsStarDotR (s : Str) : Option (Str × Str) := wsStarGoR s (wsRun s)

/-- Matcher for `kw\s+(\w+)` at the current position (patterns
`class\s+(\w+)`, `def\s+(\w+)`, `@keyframes\s+(\w+)` and the keyword part of
the export pattern): literal keyword, at least one whitespace character, then
a non-empty word-character run as the capture. -/
def kwNameAt (kw : Str) (s : Str) : Option (Str × Str) :=
  if kw.isPrefixOf s then
    let t := s.drop kw.length
    let w := wsRun t
    if w = 0 then none
    else
      let u := t.drop w
      let n := u.takeWhile isWordChar
      if n = [] then none else some (n, u.drop n.length)
  else none

/-! ### Model of the external JSON library (`json.loads`, Python `str`/`repr`)

`json.loads` is Python standard-library code external to the repository; the
engine only needs which value (object/array/other) a content parses to, or
that parsing fails.  The model below is a minimal strict JSON parser:
numbers are restricted to integers (no claim involves fractional numbers),
string escapes to the single-character ones, and `\u` escapes are rejected. -/

/-- JSON values as produced by the external parser. -/
inductive Json where
  | null : Json
  | bool : Bool → Json
  | num : Int → Json
  | jstr : Str → Json
  | arr : List Json → Json
  | obj : List (Str × Json) → Json

/-- Whitespace skipped between JSON tokens (` \t\n\r`). -/
def jsonWsChar (c : Char) : Bool := c == ' ' || c == '\t' || c == '\n' || c == '\r'

/-- Skip inter-token JSON whitespace. -/
def jsonSkipWs (s : Str) : Str := s.dropWhile jsonWsChar

/-- Parse the body of a JSON string after the opening quote; returns the
decoded characters and the suffix after the closing quote. -/
def jsonParseStrGo : Nat → Str → Option (Str × Str)
  | 0, _ => none
  | _ + 1, [] => none
  | fuel + 1, c :: rest =>
    if c = '"' then some ([], rest)
    else if c = '\\' then
      match rest with
      | e :: rest2 =>
        let esc : Option Char :=
          if e = '"' then some '"' else if e = '\\' then some '\\'
          else if e = '/' then some '/' else if e = 'n' then some '\n'
          else if e = 't' then some '\t' else if e = 'r' then some '\r'
          else if e = 'b' then some '\x08' else if e = 'f' then some '\x0c'
          else none
        match esc with
        | some ch => (jsonParseStrGo fuel rest2).map (fun g => (ch :: g.1, g.2))
        | none => none
      | [] => none
    else (jsonParseStrGo fuel rest).map (fun g => (c :: g.1, g.2))

/-- Digits to a natural number. -/
def digitsToNat (ds : Str) : Nat := ds.foldl (fun acc c => acc * 10 + (c.toNat - 48)) 0

/-- Parse a JSON integer literal (fractional and exponent forms rejected by
this model). -/
def jsonParseNum (s : Str) : Option (Int × Str) :=
  let p := match s with
    | '-' :: t => (true, t)
    | _ => (false, s)
  let ds := p.2.takeWhile Char.isDigit
  if ds = [] then none
  else
    let rest := p.2.drop ds.length
    match rest with
    | '.' :: _ => none
    | 'e' :: _ => none
    | 'E' :: _ => none
    | _ =>
      let n := digitsToNat ds
      some (if p.1 then -(n : Int) else (n : Int), rest)

/-- Python-`dict` insertion: a duplicate key keeps its first position but
takes the new value. -/
def pyInsert (kvs : List (Str × Json)) (k : Str) (v : Json) : List (Str × Json) :=
  match kvs with
  | [] => [(k, v)]
  | (k', v') :: rest => if k' = k then (k, v) :: rest else (k', v') :: pyInsert rest k v

/-- Fold a parsed key/value sequence into a Python dict (insertion order,
later duplicates override). -/
def jsonMkDict (raw : List (Str × Json)) : List (Str × Json) :=
  raw.foldl (fun d kv => pyInsert d kv.1 kv.2) []

mutual

/-- Parse one JSON value (fuel-driven recursive descent). -/
def jsonParseVal : Nat → Str → Option (Json × Str)
  | 0, _ => none
  | fuel + 1, s0 =>
    let s := jsonSkipWs s0
    match s with
    | [] => none
    | c :: rest =>
      if c = 'n' then
        if (str "ull").isPrefixOf rest then some (Json.null, rest.drop 3) else none
      else if c = 't' then
        if (str "rue").isPrefixOf rest then some (Json.bool true, rest.drop 3) else none
      else if c = 'f' then
        if (str "alse").isPrefixOf rest then some (Json.bool false, rest.drop 4) else none
      else if c = '"' then
        (jsonParseStrGo (rest.length + 1) rest).map (fun g => (Json.jstr g.1, g.2))
      else if c = '[' then
        let t := jsonSkipWs rest
        match t with
        | ']' :: r => some (Json.arr [], r)
        | _ => (jsonParseArrElems fuel t).map (fun g => (Json.arr g.1, g.2))
      else if c = '\x7b' then
        let t := jsonSkipWs rest
        match t with
        | '\x7d' :: r => some (Json.obj [], r)
        | _ => (jsonParseObjElems fuel t).map (fun g => (Json.obj (jsonMkDict g.1), g.2))
      else (jsonParseNum s).map (fun g => (Json.num g.1, g.2))

/-- Parse the elements of a non-empty JSON array (after `[`). -/
def jsonParseArrElems : Nat → Str → Option (List Json × Str)
  | 0, _ => none
  | fuel + 1, s =>
    match jsonParseVal fuel s with
    | none => none
    | some (v, r) =>
      match jsonSkipWs r with
      | ',' :: r2 => (jsonParseArrElems fuel (jsonSkipWs r2)).map (fun g => (v :: g.1, g.2))
      | ']' :: r2 => some ([v], r2)
      | _ => none

/-- Parse the members of a non-empty JSON object (after the opening brace),
returning the raw key/value sequence in source order. -/
def jsonParseObjElems : Nat → Str → Option (List (Str × Json) × Str)
  | 0, _ => none
  | fuel + 1, s =>
    match s with
    | '"' :: rest =>
      match jsonParseStrGo (rest.length + 1) rest with
      | none => none
      | some (k, r) =>
        match jsonSkipWs r with
        | ':' :: r2 =>
          match jsonParseVal fuel r2 with
          | none => none
          | some (v, r3) =>
            match jsonSkipWs r3 with
            | ',' :: r4 =>
              (jsonParseObjElems fuel (jsonSkipWs r4)).map (fun g => ((k, v) :: g.1, g.2))
            | '\x7d' :: r4 => some ([(k, v)], r4)
            | _ => none
        | _ => none
    | _ => none

end

/-- Model of `json.loads`: parse one value, require only trailing whitespace. -/
def jsonParse (s : Str) : Option Json :=
  match jsonParseVal (s.length + 1) s with
  | some (v, r) => if jsonSkipWs r = [] then some v else none
  | none => none

/-- Python `repr` of one string, with single-quote rendering. -/
def pyReprStr (s : Str) : Str := str "'" ++ s ++ str "'"

mutual

/-- Python `repr` of a JSON value, with strings rendered between single
quotes. -/
def pyReprJson : Json → Str
  | Json.null => str "None"
  | Json.bool true => str "True"
  | Json.bool false => str "False"
  | Json.num n => intToStr n
  | Json.jstr s => pyReprStr s
  | Json.arr xs => str "[" ++ joinSep (str ", ") (pyReprJsonList xs) ++ str "]"
  | Json.obj kvs => str "\x7b" ++ joinSep (str ", ") (pyReprJsonKvs kvs) ++ str "\x7d"

/-- Python `repr` applied to each element of a JSON array. -/
def pyReprJsonList : List Json → List Str
  | [] => []
  | x :: xs => pyReprJson x :: pyReprJsonList xs

/-- Python `'k': v` member rendering of a JSON object. -/
def pyReprJsonKvs : List (Str × Json) → List Str
  | [] => []
  | kv :: kvs => (pyReprStr kv.1 ++ str ": " ++ pyReprJson kv.2) :: pyReprJsonKvs kvs

end

/-- Python `str()` of a JSON value as interpolated by an f-string: a string
renders as itself, every other value as its `repr`. -/
def pyStrJson : Json → Str
  | Json.jstr s => s
  | j => pyReprJson j

/-- Python `dict.get(k, dflt)` on a parsed JSON object. -/
def pyDictGet (kvs : List (Str × Json)) (k : Str) (dflt : Json) : Json :=
  match kvs with
  | [] => dflt
  | (k', v) :: rest => if k' = k then v else pyDictGet rest k dflt

/-- Python `repr` of a list of strings, `str(imports)` at line 273
(single-quote rendering). -/
def pyReprStrList (xs : List Str) : Str :=
  str "[" ++ joinSep (str ", ") (xs.map pyReprStr) ++ str "]"

/-! ### `truncate_text` and the Brief Extractor (`get_file_brief`, lines 96-233) -/

/-- Python slice `s[:n]` for a possibly negative bound. -/
def pySliceTo (s : Str) (n : Int) : Str :=
  if 0 ≤ n then s.take n.toNat else s.take (s.length - (-n).toNat)

/-- `truncate_text` (lines 229-233): keep the text when it fits, else slice
to `max_length - 3` characters and append three dots. -/
def truncate_text (text : Str) (maxLength : Nat) : Str :=
  if text.length ≤ maxLength then text
  else pySliceTo text ((maxLength : Int) - 3) ++ str "..."

/-- Matcher for `"""(.*?)"""` (or the `'''` form) with `re.DOTALL`: the group
between the first opening triple quote and the first closing one after it. -/
def reSearchTriple (q : Char) (s : Str) : Option Str :=
  (subSplit [q, q, q] s).bind (fun t => subBefore [q, q, q] t)

/-- Matcher for `#\s*(.+)` at a `#`. -/
def commentAt (s : Str) : Option Str :=
  match s with
  | '#' :: rest => (wsStarDotR rest).map Prod.fst
  | _ => none

/-- `re.search(r'#\s*(.+)', content)` (line 119). -/
def reSearchComment (content : Str) : Option Str := reSearchPos commentAt content

/-- Leading-docstring brief for `.py` (lines 110-116): when the content starts
with a triple quote and the docstring pattern matches, the first line of the
stripped group, truncated. -/
def pyDocstringBrief (content : Str) (maxLength : Nat) : Option Str :=
  if (str "\"\"\"").isPrefixOf content ∨ (str "'''").isPrefixOf content then
    match (reSearchTriple '"' content).orElse (fun _ => reSearchTriple '\'' content) with
    | some g => some (truncate_text (takeToNl (pyStrip g)) maxLength)
    | none => none
  else none

/-- Remaining `.py` brief checks (lines 124-133): `__main__` substring, then
`class\s+(\w+)`, then `def\s+(\w+)`; the class/function briefs are built
without truncation. -/
def briefPyRest (content : Str) : Option Str :=
  if isSubstr (str "__main__") content then some (str "Main script")
  else if isSubstr (str "class ") content then
    (reSearchPos (kwNameAt (str "class")) content).map
      (fun n => str "Defines " ++ n.1 ++ str " class")
  else if isSubstr (str "def ") content then
    (reSearchPos (kwNameAt (str "def")) content).map
      (fun n => str "Defines " ++ n.1 ++ str "()")
  else none

/-- `.py` brief branch (lines 108-133): docstring, else first `#` comment when
its text is longer than 10 characters, else `briefPyRest`; `none` falls
through to the generic rule. -/
def briefPy (content : Str) (m : Nat) : Option Str :=
  match pyDocstringBrief content m with
  | some b => some b
  | none =>
    match reSearchComment content with
    | some g => if 10 < g.length then some (truncate_text g m) else briefPyRest content
    | none => briefPyRest content

/-- `.md` brief branch (lines 135-144): first stripped line that is non-empty
and not an HTML comment; a `#` heading is stripped of `#` marks, any other
line is used only when longer than 20 characters. -/
def briefMdGo : List Str → Nat → Option Str
  | [], _ => none
  | l :: ls, m =>
    let line := pyStrip l
    if line = [] ∨ (str "<!--").isPrefixOf line then briefMdGo ls m
    else if (str "#").isPrefixOf line then
      some (truncate_text (pyStrip (pyStripChar '#' line)) m)
    else if 20 < line.length then some (truncate_text line m)
    else briefMdGo ls m

/-- `.md` brief branch over the split lines. -/
def briefMd (content : Str) (m : Nat) : Option Str := briefMdGo (pySplitNl content) m

/-- Group before a case-insensitive closing literal on the same line
(the `(.*?)` of `<title>(.*?)</title>` without `re.DOTALL`). -/
def findCloseSameLine (close : Str) : Str → Option Str
  | [] => none
  | s@(c :: rest) =>
    if ciPrefixOf close s then some []
    else if c = '\n' then none
    else (findCloseSameLine close rest).map (fun g => c :: g)

/-- Matcher for `<title>(.*?)</title>` (`re.IGNORECASE`, line 148). -/
def titleAt (s : Str) : Option Str :=
  if ciPrefixOf (str "<title>") s then findCloseSameLine (str "</title>") (s.drop 7)
  else none

/-- Matcher for `<h1[^>]*>(.*?)</h1>` (`re.IGNORECASE`, line 151). -/
def h1At (s : Str) : Option Str :=
  if ciPrefixOf (str "<h1") s then
    let t := s.drop 3
    let a := t.takeWhile (· != '>')
    match t.drop a.length with
    | '>' :: u => findCloseSameLine (str "</h1>") u
    | _ => none
  else none

/-- `re.sub(r'<[^>]+>', '', s)` (line 153): delete every tag-like run. -/
def removeTagsGo : Nat → Str → Str
  | 0, s => s
  | _ + 1, [] => []
  | fuel + 1, c :: rest =>
    if c = '<' then
      let a := rest.takeWhile (· != '>')
      if a ≠ [] ∧ (rest.drop a.length).head? = some '>' then
        removeTagsGo fuel (rest.drop (a.length + 1))
      else c :: removeTagsGo fuel rest
    else c :: removeTagsGo fuel rest

/-- Delete every `<[^>]+>` tag from `s`. -/
def removeTags (s : Str) : Str := removeTagsGo (s.length + 1) s

/-- `.html`/`.htm` brief branch (lines 146-154): title, else first `<h1>` with
inner tags stripped, else the fixed string. -/
def briefHtml (content : Str) (m : Nat) : Option Str :=
  match reSearchPos titleAt content with
  | some g => some (truncate_text (pyStrip g) m)
  | none =>
    match reSearchPos h1At content with
    | some g => some (truncate_text (pyStrip (removeTags g)) m)
    | none => some (str "HTML document")

/-- `.json` brief branch (lines 156-166): object → first 3 keys, array → item
count, parse failure → fixed string; any other parsed value falls through to
the generic rule. -/
def briefJson (content : Str) : Option Str :=
  match jsonParse content with
  | none => some (str "JSON data")
  | some (Json.obj kvs) =>
    some (str "JSON: " ++ joinSep (str ", ") ((kvs.map Prod.fst).take 3) ++ str "...")
  | some (Json.arr xs) => some (str "JSON array [" ++ natToStr xs.length ++ str " items]")
  | some _ => none

/-- Existence of `\s*\*\/` at the current position (the tail of the pattern
`/\*\s*(.+?)\s*\*/`): some backtracking amount `b ≤ k` of whitespace is
followed by the literal `*/`. -/
def starCloseChk (s : Str) : Nat → Bool
  | 0 => (str "*/").isPrefixOf s
  | b + 1 => (str "*/").isPrefixOf (s.drop (b + 1)) || starCloseChk s b

/-- Lazy `(.+?)` growth for the CSS block-comment pattern: smallest group
`u.take g` (non-newline characters) followed by `\s*\*\/`. -/
def cssLazyGo (u : Str) : Nat → Nat → Option Str
  | 0, _ => none
  | fuel + 1, g =>
    let v := u.drop g
    if starCloseChk v (wsRun v) then some (u.take g) else cssLazyGo u fuel (g + 1)

/-- Try the CSS comment group at a fixed whitespace offset. -/
def cssTryAt (u : Str) : Option Str := cssLazyGo u (takeToNl u).length 1

/-- Greedy `\s*` backtracking for the CSS block-comment pattern: largest
whitespace prefix `a` whose continuation matches. -/
def cssWsGo (s : Str) : Nat → Option Str
  | 0 => cssTryAt s
  | a + 1 =>
    match cssTryAt (s.drop (a + 1)) with
    | some g => some g
    | none => cssWsGo s a

/-- Matcher for `/\*\s*(.+?)\s*\*/` (line 171) at a position. -/
def cssCommentAt (s : Str) : Option Str :=
  if (str "/*").isPrefixOf s then cssWsGo (s.drop 2) (wsRun (s.drop 2)) else none

/-- Matcher for `^([.#]?\w+)\s*\x7b` (`re.MULTILINE`, lines 174 and 406) at a
line start: optional `.`/`#`, a word run, optional whitespace, then an
opening brace; the capture is the optional mark plus the word. -/
def selAt (s : Str) : Option (Str × Str) :=
  let p :=
    match s with
    | c :: t => if c = '.' ∨ c = '#' then ([c], t) else (([] : Str), s)
    | [] => ([], s)
  let w := p.2.takeWhile isWordChar
  if w = [] then none
  else
    let t2 := p.2.drop w.length
    match t2.drop (wsRun t2) with
    | '\x7b' :: rest => some (p.1 ++ w, rest)
    | _ => none

/-- `.css`/`.scss`/`.sass` brief branch (lines 168-176): first block-comment
group when `/*` occurs, else up to 3 selector captures; `none` falls through
to the generic rule. -/
def briefCss (content : Str) (m : Nat) : Option Str :=
  let c1 :=
    if isSubstr (str "/*") content then
      match reSearchPos cssCommentAt content with
      | some g => some (truncate_text g m)
      | none => none
    else none
  match c1 with
  | some b => some b
  | none =>
    let selectors := reFindallLS selAt content
    if selectors = [] then none
    else some (str "Styles: " ++ joinSep (str ", ") (selectors.take 3))

/-- Matcher for `(?:REM|rem|::)\s+(.+)` (line 180) at a position. -/
def remAt (s : Str) : Option Str :=
  (if (str "REM").isPrefixOf s then (wsPlusDotR (s.drop 3)).map Prod.fst else none).orElse
    (fun _ =>
      (if (str "rem").isPrefixOf s then (wsPlusDotR (s.drop 3)).map Prod.fst else none).orElse
        (fun _ =>
          if (str "::").isPrefixOf s then (wsPlusDotR (s.drop 2)).map Prod.fst else none))

/-- Matcher for `(?:ECHO|echo)\s+(.+)` (line 183) at a position. -/
def echoAt (s : Str) : Option Str :=
  (if (str "ECHO").isPrefixOf s then (wsPlusDotR (s.drop 4)).map Prod.fst else none).orElse
    (fun _ =>
      if (str "echo").isPrefixOf s then (wsPlusDotR (s.drop 4)).map Prod.fst else none)

/-- `.bat`/`.cmd` brief branch (lines 178-188): first REM-style comment, else
an ECHO payload that is non-empty and does not start with `@`, else the fixed
string. -/
def briefBat (content : Str) (m : Nat) : Option Str :=
  match reSearchPos remAt content with
  | some g => some (truncate_text g m)
  | none =>
    match reSearchPos echoAt content with
    | some g0 =>
      let desc := pyStrip g0
      if desc ≠ [] ∧ ¬ (str "@").isPrefixOf desc then some (truncate_text desc m)
      else some (str "Batch script")
    | none => some (str "Batch script")

/-- First line after the shebang whose stripped form starts with `#` and is
longer than 2 characters (lines 194-196); the raw line is returned. -/
def shCommentLines : List Str → Option Str
  | [] => none
  | l :: ls =>
    if (str "#").isPrefixOf (pyStrip l) ∧ 2 < (pyStrip l).length then some l
    else shCommentLines ls

/-- `.sh`/`.bash` brief branch (lines 190-197). -/
def briefSh (content : Str) (m : Nat) : Option Str :=
  if (str "#!").isPrefixOf content then
    match shCommentLines ((pySplitNl content).drop 1) with
    | some l => some (truncate_text (pyStrip (pyStripChar '#' l)) m)
    | none => some (str "Shell script")
  else some (str "Shell script")

/-- Anchored `^\d{4}-\d{2}-\d{2}` date test at the start of `s`. -/
def dateMatchAt (s : Str) : Bool :=
  match s with
  | a :: b :: c :: d :: '-' :: e :: f :: '-' :: g :: h :: _ =>
    a.isDigit && b.isDigit && c.isDigit && d.isDigit && e.isDigit && f.isDigit &&
      g.isDigit && h.isDigit
  | _ => false

/-- `re.search(r'\d{4}-\d{2}-\d{2}', s)` as a Boolean (line 209). -/
def dateSearch : Str → Bool
  | [] => dateMatchAt []
  | s@(_ :: rest) => dateMatchAt s || dateSearch rest

/-- `re.search(r'^\d+\.', s)` as a Boolean (line 211): digits then a dot at
the start of the string. -/
def numDotAt (s : Str) : Bool :=
  let d := s.takeWhile Char.isDigit
  !d.isEmpty && ((s.drop d.length).head? == some '.')

/-- `.txt` brief branch (lines 199-214), dispatching on the first non-empty
stripped line. -/
def briefTxt (content : Str) (m : Nat) : Option Str :=
  let lines := (pySplitNl content).filterMap
    (fun l => let t := pyStrip l; if t = [] then none else some t)
  match lines with
  | [] => none
  | first :: _ =>
    let fl := pyLower first
    if isSubstr (str "readme") fl then some (str "Readme file")
    else if isSubstr (str "todo") fl || isSubstr (str "- [ ]") content then
      some (str "TODO list")
    else if isSubstr (str "log") fl || dateSearch first then some (str "Log file")
    else if numDotAt first || (str "-").isPrefixOf first then some (str "List or notes")
    else some (truncate_text first m)

/-- Generic brief fallback (lines 216-223): first stripped line that is
non-empty and starts with none of `#`, `//`, `/*`, truncated; else the fixed
string. -/
def defaultBriefGo : List Str → Nat → Str
  | [], _ => str "Text file"
  | l :: ls, m =>
    let line := pyStrip l
    if !line.isEmpty && !((str "#").isPrefixOf line) && !((str "//").isPrefixOf line) &&
        !((str "/*").isPrefixOf line) then
      truncate_text line m
    else defaultBriefGo ls m

/-- Generic brief fallback over the split lines. -/
def defaultBrief (content : Str) (m : Nat) : Str := defaultBriefGo (pySplitNl content) m

/-- Extension dispatch of the type-specific brief rules (lines 108-214);
`none` means the branch fell through to the generic rule. The comparisons
follow the source: `file_path.suffix` is matched case-sensitively. -/
def briefSpecific (ext content : Str) (m : Nat) : Option Str :=
  if ext = str ".py" then briefPy content m
  else if ext = str ".md" then briefMd content m
  else if ext = str ".html" ∨ ext = str ".htm" then briefHtml content m
  else if ext = str ".json" then briefJson content
  else if ext = str ".css" ∨ ext = str ".scss" ∨ ext = str ".sass" then briefCss content m
  else if ext = str ".bat" ∨ ext = str ".cmd" then briefBat content m
  else if ext = str ".sh" ∨ ext = str ".bash" then briefSh content m
  else if ext = str ".txt" then briefTxt content m
  else none

/-- `get_file_brief` (lines 96-226).  The file read of the first up-to-1000
characters is modelled as the `Except` input (`Except.error` when reading
raises); the extension stands for `file_path.suffix`.  Any failure returns
the fixed string `"Error reading"` (lines 225-226). -/
def get_file_brief (readResult : Except Str Str) (ext : Str) (maxLength : Nat) : Str :=
  match readResult with
  | Except.error _ => str "Error reading"
  | Except.ok raw =>
    let content := pyStrip raw
    if content = [] then str "Empty file"
    else
      match briefSpecific ext content maxLength with
      | some b => b
      | none => defaultBrief content maxLength

/-! ### Deep Analyzer (`analyze_file_content`, lines 236-564) -/

/-- Result record of `analyze_file_content`; the `path` key of the Python
dict is carried by the caller and not analysed, `size` comes from
`file_path.stat().st_size` and is supplied by the environment. -/
structure Analysis where
  lines : Nat
  non_empty_lines : Nat
  size : Nat
  summary : Str

/-- Matcher for `^#\s+(.+)$` (`single = true`, line 327) and `^#+\s+(.+)$`
(`single = false`, line 332) at a line start; `$` is implied by the greedy
`(.+)` stopping at the line end.  `\s+` may span newlines. -/
def hashHeaderAt (single : Bool) (s : Str) : Option (Str × Str) :=
  match s with
  | '#' :: rest => wsPlusDotR (if single then rest else rest.dropWhile (· == '#'))
  | _ => none

/-- Matcher for `^(?:from|import)\s+(\S+)` (`re.MULTILINE`, line 270) at a
line start. -/
def importAt (s : Str) : Option (Str × Str) :=
  let tryKw (kw : Str) : Option (Str × Str) :=
    if kw.isPrefixOf s then
      let t := s.drop kw.length
      let w := wsRun t
      if w = 0 then none
      else
        let u := t.drop w
        let n := u.takeWhile (fun c => !pyIsSpace c)
        if n = [] then none else some (n, u.drop n.length)
    else none
  (tryKw (str "from")).orElse (fun _ => tryKw (str "import"))

/-- Leading-docstring summary fragment for `.py` (lines 260-267): first
`\n\n`-paragraph of the stripped docstring when non-empty. -/
def pyDocPart (content : Str) : List Str :=
  if (str "\"\"\"").isPrefixOf (pyStrip content) ∨ (str "'''").isPrefixOf (pyStrip content) then
    match (reSearchTriple '"' content).orElse (fun _ => reSearchTriple '\'' content) with
    | some g =>
      let d := pyStrip g
      if d = [] then [] else [takeToSub (str "\n\n") d]
    | none => []
  else []

/-- Import-derived domain fragment (lines 270-280): substring checks on the
lower-cased `repr` of the import list. -/
def pyImportPart (imports : List Str) : List Str :=
  if imports = [] then []
  else
    let r := pyLower (pyReprStrList imports)
    if isSubstr (str "flask") r || isSubstr (str "django") r then
      [str "Web application module"]
    else if isSubstr (str "numpy") r || isSubstr (str "pandas") r then
      [str "Data analysis module"]
    else if isSubstr (str "tensorflow") r || isSubstr (str "torch") r then
      [str "Machine learning module"]
    else if isSubstr (str "pytest") r || isSubstr (str "unittest") r then
      [str "Test module"]
    else []

/-- Key-function selection loop (lines 294-304), kept verbatim: `__init__*`
skipped, `test_*` collapsed behind a `'test_' not in join` check, the four
entry-point names always appended, others only while fewer than 5 collected. -/
def keyFunsGo : List Str → List Str → List Str
  | acc, [] => acc
  | acc, f :: fs =>
    if (str "__init__").isPrefixOf f then keyFunsGo acc fs
    else if (str "test_").isPrefixOf f then
      if isSubstr (str "test_") (joinSep (str " ") acc) then keyFunsGo acc fs
      else keyFunsGo (acc ++ [str "test functions"]) fs
    else if f = str "main" ∨ f = str "run" ∨ f = str "execute" ∨ f = str "process" then
      keyFunsGo (acc ++ [f]) fs
    else if acc.length < 5 then keyFunsGo (acc ++ [f]) fs
    else keyFunsGo acc fs

/-- Suffix of `run` after its last newline, when it has one (the greedy
`\s*` then literal `\n` of the entry-block pattern). -/
def afterLastNl : Str → Option Str
  | [] => none
  | c :: rest =>
    match afterLastNl rest with
    | some t => some t
    | none => if c = '\n' then some rest else none

/-- Lazy `(.*?)` of `r'if __name__.*?:\s*\n(.*?)(?:\n\S|\Z)'`: everything up
to the first newline followed by a non-whitespace character, else all. -/
def lazyGroup : Str → Str
  | [] => []
  | c :: rest =>
    if c = '\n' then
      match rest with
      | d :: _ => if pyIsSpace d then c :: lazyGroup rest else []
      | [] => c :: lazyGroup rest
    else c :: lazyGroup rest

/-- Scan for the first `:` whose following whitespace run contains a newline
(the lazy `.*?:` then `\s*\n` of the entry-block pattern), returning the
captured block body. -/
def mainColon : Str → Option Str
  | [] => none
  | c :: rest =>
    if c = ':' then
      let run := rest.takeWhile pyIsSpace
      match afterLastNl run with
      | some tail => some (lazyGroup (tail ++ rest.drop run.length))
      | none => mainColon rest
    else mainColon rest

/-- Group of `re.search(r'if __name__.*?:\s*\n(.*?)(?:\n\S|\Z)', content,
re.DOTALL)` (line 312). -/
def mainGroup (content : Str) : Option Str :=
  (subSplit (str "if __name__") content).bind mainColon

/-- Entry-block fragment (lines 310-318). -/
def pyMainPart (content : Str) : List Str :=
  if isSubstr (str "if __name__") content then
    match mainGroup content with
    | some mc =>
      if isSubstr (str "argparse") mc || isSubstr (str "ArgumentParser") mc then
        [str "Command-line interface with argument parsing"]
      else if isSubstr (str "app.run") mc then [str "Web server startup"]
      else []
    | none => []
  else []

/-- `.py` summary branch (lines 255-320). -/
def pySummary (content : Str) : Str :=
  let imports := reFindallLS importAt content
  let classes := reFindallLS (kwNameAt (str "class")) content
  let functions := reFindallLS (kwNameAt (str "def")) content
  let mainPart :=
    if isSubstr (str "__main__") content then [str "Executable script with main entry point"]
    else []
  let classPart :=
    if classes ≠ [] then
      [str "Defines " ++ natToStr classes.length ++ str " class(es): " ++
        joinSep (str ", ") (classes.take 5)]
    else []
  let keyFuns :=
    if functions ≠ [] then
      let kf := keyFunsGo [] functions
      if kf ≠ [] then [str "Key functions: " ++ joinSep (str ", ") kf] else []
    else []
  let parts := pyDocPart content ++ pyImportPart imports ++ mainPart ++ classPart ++
    keyFuns ++ pyMainPart content
  if parts = [] then str "Python module" else joinSep (str " ") parts

/-- Matcher for `\[([^\]]+)\]\([^\)]+\)` (markdown link, line 346) at a
position. -/
def linkAt (s : Str) : Option (Str × Str) :=
  match s with
  | '[' :: t =>
    let a := t.takeWhile (· != ']')
    if a = [] then none
    else
      match t.drop a.length with
      | ']' :: '(' :: u =>
        let b := u.takeWhile (· != ')')
        if b = [] then none
        else
          match u.drop b.length with
          | ')' :: rest => some (a, rest)
          | _ => none
      | _ => none
  | _ => none

/-- Matcher for `!\[([^\]]*)\]\([^\)]+\)` (markdown image, line 347) at a
position; the alt text may be empty. -/
def imageAt (s : Str) : Option (Str × Str) :=
  match s with
  | '!' :: '[' :: t =>
    let a := t.takeWhile (· != ']')
    match t.drop a.length with
    | ']' :: '(' :: u =>
      let b := u.takeWhile (· != ')')
      if b = [] then none
      else
        match u.drop b.length with
        | ')' :: rest => some (a, rest)
        | _ => none
    | _ => none
  | _ => none

/-- `.md` summary branch (lines 322-361). -/
def mdSummary (content : Str) : Str :=
  let lower := pyLower content
  let parts1 :=
    match reSearchLS (hashHeaderAt true) content with
    | some g => [str "Documentation: " ++ g.1]
    | none => []
  let headers := reFindallLS (hashHeaderAt false) content
  let parts2 :=
    if isSubstr (str "installation") lower && isSubstr (str "usage") lower then
      [str "Project documentation with setup instructions"]
    else if isSubstr (str "todo") lower || isSubstr (str "- [ ]") content then
      let todos := countSub (str "- [ ]") content
      let done := countSub (str "- [x]") content
      [str "Task list (" ++ natToStr done ++ str "/" ++ natToStr (todos + done) ++
        str " completed)"]
    else if isSubstr (str "changelog") lower || isSubstr (str "release") lower then
      [str "Version history/changelog"]
    else if headers ≠ [] then [str "Contains " ++ natToStr headers.length ++ str " sections"]
    else []
  let links := reFindallAny linkAt content
  let images := reFindallAny imageAt content
  let fences := countSub (str "```") content
  let elements :=
    (if links ≠ [] then [natToStr links.length ++ str " links"] else []) ++
    (if images ≠ [] then [natToStr images.length ++ str " images"] else []) ++
    (if fences ≠ 0 then [natToStr (fences / 2) ++ str " code blocks"] else [])
  let parts := parts1 ++ parts2 ++
    (if elements ≠ [] then [str "Includes: " ++ joinSep (str ", ") elements] else [])
  if parts = [] then str "Markdown document" else joinSep (str " ") parts

/-- `.html`/`.htm` summary branch (lines 363-393). -/
def htmlSummary (content : Str) : Str :=
  let lower := pyLower content
  let p1 :=
    match reSearchPos titleAt content with
    | some g => [str "Webpage: " ++ pyStrip g]
    | none => []
  let p2 :=
    if isSubstr (str "<form") lower then
      [str "Interactive page with " ++ natToStr (countSub (str "<form") lower) ++
        str " form(s)"]
    else []
  let p3 :=
    if isSubstr (str "jquery") lower || isSubstr (str "react") lower ||
        isSubstr (str "vue") lower then
      let fw :=
        (if isSubstr (str "jquery") lower then [str "jQuery"] else []) ++
        (if isSubstr (str "react") lower then [str "React"] else []) ++
        (if isSubstr (str "vue") lower then [str "Vue"] else [])
      [str "Uses: " ++ joinSep (str ", ") fw]
    else []
  let scripts := countSub (str "<script") lower
  let styles := countSub (str "<style") lower
  let p4 :=
    if scripts ≠ 0 ∨ styles ≠ 0 then
      [str "Contains " ++ natToStr scripts ++ str " scripts and " ++ natToStr styles ++
        str " inline styles"]
    else []
  let parts := p1 ++ p2 ++ p3 ++ p4
  if parts = [] then str "HTML document" else joinSep (str " ") parts

/-- `.css` summary branch (lines 395-420). -/
def cssSummary (content : Str) : Str :=
  let lower := pyLower content
  let p1 :=
    if isSubstr (str "bootstrap") lower then [str "Bootstrap-based styles"]
    else if isSubstr (str "tailwind") lower then [str "Tailwind CSS utilities"]
    else []
  let selectors := reFindallLS selAt content
  let media := countSub (str "@media") content
  let animations := reFindallAny (kwNameAt (str "@keyframes")) content
  let p2 :=
    if selectors ≠ [] then
      [str "Defines " ++ natToStr (dedupKeepLast selectors).length ++
        str " unique selectors"]
    else []
  let p3 :=
    if media ≠ 0 then
      [str "Responsive design with " ++ natToStr media ++ str " media queries"]
    else []
  let p4 :=
    if animations ≠ [] then [str "Animations: " ++ joinSep (str ", ") animations] else []
  let parts := p1 ++ p2 ++ p3 ++ p4
  if parts = [] then str "Stylesheet" else joinSep (str " ") parts

/-- Keyword-plus-name part `(?:class|function|const|let|var)\s+(\w+)` of the
export pattern (line 443), alternatives tried in source order. -/
def jsKwName (s : Str) : Option (Str × Str) :=
  (kwNameAt (str "class") s).orElse (fun _ =>
    (kwNameAt (str "function") s).orElse (fun _ =>
      (kwNameAt (str "const") s).orElse (fun _ =>
        (kwNameAt (str "let") s).orElse (fun _ => kwNameAt (str "var") s))))

/-- Matcher for
`export\s+(?:default\s+)?(?:class|function|const|let|var)\s+(\w+)` (line 443)
at a position, with the optional `default\s+` tried greedily first. -/
def exportAt (s : Str) : Option (Str × Str) :=
  if (str "export").isPrefixOf s then
    let t := s.drop 6
    let w := wsRun t
    if w = 0 then none
    else
      let u := t.drop w
      let withDef :=
        if (str "default").isPrefixOf u then
          let v := u.drop 7
          let w2 := wsRun v
          if w2 = 0 then none else jsKwName (v.drop w2)
        else none
      withDef.orElse (fun _ => jsKwName u)
  else none

/-- Exported names found by the export pattern (line 443). -/
def jsExports (content : Str) : List Str := reFindallAny exportAt content

/-- Export fragment (lines 445-449): when any export is found, either
`exports[0]` with a `(default)` suffix whenever the substring `default`
occurs anywhere in the content, or the first 3 names joined. -/
def jsExportFragment (content : Str) : Option Str :=
  match jsExports content with
  | [] => none
  | e :: es =>
    if isSubstr (str "default") content then some (str "Exports: " ++ e ++ str " (default)")
    else some (str "Exports: " ++ joinSep (str ", ") (List.take 3 (e :: es)))

/-- Framework fragment for JS-like files (lines 427-439). -/
def jsFrameworkPart (lower : Str) : List Str :=
  if isSubstr (str "react") lower then
    if isSubstr (str "component") lower then [str "React component"]
    else [str "React application code"]
  else if isSubstr (str "angular") lower then [str "Angular module"]
  else if isSubstr (str "vue") lower then [str "Vue.js component"]
  else if isSubstr (str "express") lower then [str "Express.js server code"]
  else if isSubstr (str "jquery") lower then [str "jQuery-based scripts"]
  else []

/-- Usage-pattern fragment for JS-like files (lines 452-457). -/
def jsPatternPart (content : Str) : List Str :=
  if isSubstr (str "addEventListener") content || isSubstr (str "onclick") content then
    [str "Event handling and DOM manipulation"]
  else if isSubstr (str "fetch(") content || isSubstr (str "axios") content then
    [str "API integration code"]
  else if isSubstr (str "test(") content || isSubstr (str "describe(") content then
    [str "Test suite"]
  else []

/-- Fragment list of the `.js`/`.ts`/`.jsx`/`.tsx` summary branch
(lines 422-459); the import list of line 442 is computed but never used in
the source and is omitted. -/
def jsSummaryParts (content : Str) : List Str :=
  jsFrameworkPart (pyLower content) ++ (jsExportFragment content).toList ++
    jsPatternPart content

/-- `.js`/`.ts`/`.jsx`/`.tsx` summary branch. -/
def jsSummary (content : Str) : Str :=
  if jsSummaryParts content = [] then str "JavaScript code"
  else joinSep (str " ") (jsSummaryParts content)

/-- `.json` summary branch (lines 461-477): manifest keys, compiler-options
key, generic key listing, array count, or the fixed parse-failure string; a
parsed value that is neither object nor array leaves the summary empty. -/
def jsonSummary (content : Str) : Str :=
  match jsonParse content with
  | none => str "JSON data file"
  | some (Json.obj kvs) =>
    let keys := kvs.map Prod.fst
    if (str "name") ∈ keys ∧ (str "version") ∈ keys ∧ (str "dependencies") ∈ keys then
      str "Package manifest: " ++ pyStrJson (pyDictGet kvs (str "name") (Json.jstr (str "unknown"))) ++
        str " v" ++ pyStrJson (pyDictGet kvs (str "version") (Json.jstr (str "?")))
    else if (str "compilerOptions") ∈ keys then str "TypeScript configuration"
    else str "Configuration with keys: " ++ joinSep (str ", ") (keys.take 5)
  | some (Json.arr xs) => str "Data array with " ++ natToStr xs.length ++ str " items"
  | some _ => []

/-- `.bat`/`.cmd` summary branch (lines 479-498). -/
def batSummary (content : Str) : Str :=
  let p1 :=
    match reSearchPos remAt content with
    | some g => [g]
    | none => []
  let p2 :=
    if isSubstr (str "npm") content then [str "Node.js build/run script"]
    else if isSubstr (str "python") content || isSubstr (str "py") content then
      [str "Python execution script"]
    else if isSubstr (str "git") content then [str "Git automation script"]
    else if isSubstr (str "copy") content || isSubstr (str "xcopy") content then
      [str "File management script"]
    else []
  let parts := p1 ++ p2
  if parts = [] then str "Windows batch script" else joinSep (str " ") parts

/-- `.sh`/`.bash` summary branch (lines 500-522). -/
def shSummary (content : Str) : Str :=
  let p1 :=
    if (str "#!/").isPrefixOf content then
      let shebang := takeToNl content
      if isSubstr (str "bash") shebang then [str "Bash script"]
      else if isSubstr (str "sh") shebang then [str "Shell script"]
      else []
    else []
  let p2 :=
    if isSubstr (str "docker") content then [str "Docker automation"]
    else if isSubstr (str "npm") content || isSubstr (str "yarn") content then
      [str "Node.js build script"]
    else if isSubstr (str "pytest") content || isSubstr (str "unittest") content then
      [str "Test runner script"]
    else if isSubstr (str "deploy") (pyLower content) then [str "Deployment script"]
    else []
  let parts := p1 ++ p2
  if parts = [] then str "Shell script" else joinSep (str " ") parts

/-- `.txt` summary branch (lines 524-539): the only branch that inspects the
file name. -/
def txtSummary (name content : Str) (lines : List Str) : Str :=
  let sample := (lines.take 10).filterMap
    (fun l => let t := pyStrip l; if t = [] then none else some t)
  if isSubstr (str "readme") (pyLower name) then
    str "README text file with project information"
  else if isSubstr (str "license") (pyLower name) then str "License information"
  else if isSubstr (str "todo") ((pyLower content).take 100) then
    str "TODO list or task tracking"
  else if (sample.take 3).all dateMatchAt then str "Log file with timestamped entries"
  else
    match sample with
    | t :: _ => str "Text document: " ++ t.take 100
    | [] => str "Text file"

/-- Generic summary fallback (lines 542-553): first stripped line among the
first five that is non-empty and does not start with `#`, cut to 150
characters; else the fixed string. -/
def genericSummary (lines : List Str) : Str :=
  match (lines.take 5).filterMap
      (fun l =>
        let t := pyStrip l
        if t = [] ∨ (str "#").isPrefixOf t then none else some t) with
  | p :: _ => p.take 150
  | [] => str "Text file"

/-- Extension dispatch of the type-specific summary rules (lines 254-539);
the empty string means no branch produced a summary.  `file_path.suffix` is
matched case-sensitively, and only the `.txt` branch receives the file
name. -/
def summaryDispatch (ext name content : Str) (lines : List Str) : Str :=
  if ext = str ".py" then pySummary content
  else if ext = str ".md" then mdSummary content
  else if ext = str ".html" ∨ ext = str ".htm" then htmlSummary content
  else if ext = str ".css" then cssSummary content
  else if ext = str ".js" ∨ ext = str ".ts" ∨ ext = str ".jsx" ∨ ext = str ".tsx" then
    jsSummary content
  else if ext = str ".json" then jsonSummary content
  else if ext = str ".bat" ∨ ext = str ".cmd" then batSummary content
  else if ext = str ".sh" ∨ ext = str ".bash" then shSummary content
  else if ext = str ".txt" then txtSummary name content lines
  else []

/-- `analyze_file_content` (lines 236-564).  The full-content read is the
`Except` input (`Except.error e` when opening or reading raises, carrying
`str(e)`); `ext` and `name` stand for `file_path.suffix` and
`file_path.name`; `size` is the `stat` size supplied by the environment.
Any failure yields the all-zero record with the error summary
(lines 557-564). -/
def analyze_file_content (readResult : Except Str Str) (ext name : Str) (size : Nat) :
    Analysis :=
  match readResult with
  | Except.error e => ⟨0, 0, 0, str "Error analyzing file: " ++ e⟩
  | Except.ok content =>
    let lines := pySplitNl content
    let specific := summaryDispatch ext name content lines
    let summary := if specific = [] then genericSummary lines else specific
    ⟨lines.length, (lines.filter (fun l => !(pyStrip l).isEmpty)).length, size, summary⟩

/-! ### Concrete inputs used by the claim theorems -/

/-- Counterexample input for C1: a `.py` content whose class-definition brief
bypasses `truncate_text`. -/
def cexC1 : Str := str "class " ++ List.replicate 40 'A' ++ str ":"

/-- Package-manifest JSON content of claim C6. -/
def pkgJson : Str := str "\x7b\"name\":\"x\",\"version\":\"1.0\",\"dependencies\":\x7b\x7d\x7d"

/-- Markdown content of claim C7. -/
def mdC7 : Str := str "# Title\n- [ ] a\n- [x] b\n"

/-- Counterexample input for C9: a named export whose name contains the
substring `default` although no default export is present. -/
def cexC9 : Str := str "export const defaultColor = 1"

/-- Witness input for C10: non-empty `.py` content with no docstring, no `#`
comment, a `class` definition, and `__main__` in the body. -/
def c10w : Str := str "x = 1\nclass Foo:\n    pass\nif __name__ == \"__main__\":\n    run()"

/-- Follows the claim's words (C9): the content contains a default export,
i.e. the token `export` followed by whitespace and `default`. -/
def specHasDefaultExportGo : Str → Bool
  | [] => false
  | s@(_ :: rest) =>
    ((str "export").isPrefixOf s && wsRun (s.drop 6) != 0 &&
      (str "default").isPrefixOf ((s.drop 6).drop (wsRun (s.drop 6)))) ||
    specHasDefaultExportGo rest

/-- Follows the claim's words (C9): whether the content contains a default
export anywhere. -/
def specHasDefaultExport (content : Str) : Bool := specHasDefaultExportGo content

/-! ### Shared lemmas -/

/-- Truncation bound: with at least 3 characters of room the result never
exceeds `maxLength`. -/
theorem truncate_text_len_le (t : Str) (m : Nat) (h3 : 3 ≤ m) :
    (truncate_text t m).length ≤ m := by
  unfold truncate_text
  split
  · assumption
  · unfold pySliceTo
    rw [if_pos (by omega)]
    have h47 : ((m : Int) - 3).toNat = m - 3 := by omega
    simp only [List.length_append, List.length_take, h47]
    have : (str "...").length = 3 := rfl
    omega

/-- Truncation of a non-empty text is non-empty. -/
theorem truncate_text_ne_nil (t : Str) (m : Nat) (ht : t ≠ []) :
    truncate_text t m ≠ [] := by
  unfold truncate_text
  split
  · exact ht
  · intro h
    rw [List.append_eq_nil] at h
    exact absurd h.2 (by decide)

/-- The generic brief fallback is non-empty and at most 50 characters. -/
theorem defaultBriefGo_spec (ls : List Str) :
    defaultBriefGo ls 50 ≠ [] ∧ (defaultBriefGo ls 50).length ≤ 50 := by
  induction ls with
  | nil => exact ⟨by decide, by decide⟩
  | cons l ls ih =>
    simp only [defaultBriefGo]
    split
    case isTrue h =>
      have hne : pyStrip l ≠ [] := by
        intro hnil
        rw [hnil] at h
        simp at h
      exact ⟨truncate_text_ne_nil _ _ hne, truncate_text_len_le _ _ (by omega)⟩
    case isFalse h => exact ih

/-- No type-specific brief rule applies outside the special-cased extension
set. -/
theorem briefSpecific_eq_none (ext content : Str) (m : Nat)
    (h : ext ∉ [str ".py", str ".md", str ".html", str ".htm", str ".json", str ".css",
      str ".scss", str ".sass", str ".bat", str ".cmd", str ".sh", str ".bash", str ".txt"]) :
    briefSpecific ext content m = none := by
  simp only [List.mem_cons, List.not_mem_nil, or_false, not_or] at h
  obtain ⟨h1, h2, h3, h4, h5, h6, h7, h8, h9, h10, h11, h12, h13⟩ := h
  simp [briefSpecific, h1, h2, h3, h4, h5, h6, h7, h8, h9, h10, h11, h12, h13]

/-- The `.json` brief dispatch. -/
theorem briefSpecific_json (content : Str) (m : Nat) :
    briefSpecific (str ".json") content m = briefJson content := by
  unfold briefSpecific
  rw [if_neg (by decide), if_neg (by decide), if_neg (by decide), if_pos rfl]

/-- The `.json` summary dispatch. -/
theorem summaryDispatch_json (name content : Str) (lines : List Str) :
    summaryDispatch (str ".json") name content lines = jsonSummary content := by
  unfold summaryDispatch
  rw [if_neg (by decide), if_neg (by decide), if_neg (by decide), if_neg (by decide),
    if_neg (by decide), if_pos rfl]

/-- Outside the `.txt` branch the summary dispatch ignores the file name. -/
theorem summaryDispatch_name_irrel (ext n1 n2 content : Str) (lines : List Str)
    (h : ext ≠ str ".txt") :
    summaryDispatch ext n1 content lines = summaryDispatch ext n2 content lines := by
  unfold summaryDispatch
  split_ifs <;> rfl

/-- Unfolded `summary` field of a successful analysis. -/
theorem analyze_summary_eq (content ext name : Str) (size : Nat) :
    (analyze_file_content (Except.ok content) ext name size).summary =
      (if summaryDispatch ext name content (pySplitNl content) = [] then
        genericSummary (pySplitNl content)
      else summaryDispatch ext name content (pySplitNl content)) := rfl

/-- Unfolded `lines` field of a successful analysis. -/
theorem analyze_lines_eq (content ext name : Str) (size : Nat) :
    (analyze_file_content (Except.ok content) ext name size).lines =
      (pySplitNl content).length := rfl

/-- Unfolded `non_empty_lines` field of a successful analysis. -/
theorem analyze_nonempty_eq (content ext name : Str) (size : Nat) :
    (analyze_file_content (Except.ok content) ext name size).non_empty_lines =
      ((pySplitNl content).filter (fun l => !(pyStrip l).isEmpty)).length := rfl

/-- Splitting never returns the empty list. -/
theorem pySplitNl_ne_nil (s : Str) : pySplitNl s ≠ [] := by
  induction s with
  | nil => simp [pySplitNl]
  | cons c rest ih =>
    rcases h : pySplitNl rest with _ | ⟨l, ls⟩
    · exact absurd h ih
    · simp only [pySplitNl, h]
      split <;> simp

/-- A newline-free string splits into itself. -/
theorem pySplitNl_no_nl (p : Str) (h : '\n' ∉ p) : pySplitNl p = [p] := by
  induction p with
  | nil => rfl
  | cons c rest ih =>
    have hc : c ≠ '\n' := fun hc => h (hc ▸ List.mem_cons_self c rest)
    have hr : '\n' ∉ rest := fun hm => h (List.mem_cons_of_mem c hm)
    rw [pySplitNl, ih hr]
    simp [hc]

/-- Splitting after a newline-free prefix peels that prefix off. -/
theorem pySplitNl_append (p s : Str) (h : '\n' ∉ p) :
    pySplitNl (p ++ '\n' :: s) = p :: pySplitNl s := by
  induction p with
  | nil =>
    rcases h2 : pySplitNl s with _ | ⟨l, ls⟩
    · exact absurd h2 (pySplitNl_ne_nil s)
    · simp only [List.nil_append, pySplitNl, h2]
      simp
  | cons c rest ih =>
    have hc : c ≠ '\n' := fun hcc => h (hcc ▸ List.mem_cons_self c rest)
    have hr : '\n' ∉ rest := fun hm => h (List.mem_cons_of_mem c hm)
    rw [List.cons_append, pySplitNl, ih hr]
    simp [hc]

/-- Splitting a newline join of newline-free pieces recovers the pieces. -/
theorem pySplitNl_join (pieces : List Str) (hne : pieces ≠ [])
    (h : ∀ p ∈ pieces, '\n' ∉ p) :
    pySplitNl (joinSep (str "\n") pieces) = pieces := by
  induction pieces with
  | nil => exact absurd rfl hne
  | cons p rest ih =>
    rcases rest with _ | ⟨q, rs⟩
    · exact pySplitNl_no_nl p (h p (by simp))
    · have hjoin : joinSep (str "\n") (p :: q :: rs) =
          p ++ '\n' :: joinSep (str "\n") (q :: rs) := by
        simp [joinSep, str]
      rw [hjoin, pySplitNl_append p _ (h p (by simp)),
        ih (by simp) (fun x hx => h x (by simp [hx]))]

/-! ### Claims C1-C5 -/

/-- Claim C1 as stated is false: for the `.py` content
`class AAAA…A:` (40-character class name) and the default `maxLength` of 50,
`get_file_brief` returns the 54-character string `"Defines AAAA…A class"`,
exceeding `maxLength`. -/
theorem C1_counterexample :
    ¬ ((get_file_brief (Except.ok cexC1) (str ".py") 50).length ≤ 50) := by decide

/-- Claim C1 (amended): the bound holds for everything that passes through
`truncate_text` — for every candidate text, `truncate_text text 50` is at
most 50 characters long and equals the candidate's first 47 characters
followed by exactly three dots whenever the candidate exceeds 50 — but
`get_file_brief` itself returns longer strings on the branches that bypass
truncation (class/function/JSON-keys/selector briefs). -/
theorem C1_truncation (text : Str) :
    (truncate_text text 50).length ≤ 50 ∧
    (50 < text.length → truncate_text text 50 = text.take 47 ++ str "...") := by
  refine ⟨truncate_text_len_le text 50 (by omega), fun h => ?_⟩
  unfold truncate_text
  rw [if_neg (by omega)]
  unfold pySliceTo
  rw [if_pos (by decide)]
  have : (((50 : Nat) : Int) - 3).toNat = 47 := by decide
  rw [this]

/-- Witness for C1: a 60-character text is truncated to its first 47
characters plus three dots, total length 50. -/
theorem C1_witness :
    50 < (List.replicate 60 'a').length ∧
    truncate_text (List.replicate 60 'a') 50 = List.replicate 47 'a' ++ str "..." := by
  refine ⟨by decide, ?_⟩
  rw [(C1_truncation (List.replicate 60 'a')).2 (by decide)]
  decide

/-- Claim C2 as stated is false: two `.txt` paths with identical content and
the same (lower-cased) extension but different file names produce different
summaries, because the `.txt` branch inspects the file name. -/
theorem C2_counterexample :
    (analyze_file_content (Except.ok (str "hello world file content")) (str ".txt")
        (str "readme.txt") 24).summary ≠
      (analyze_file_content (Except.ok (str "hello world file content")) (str ".txt")
        (str "other.txt") 24).summary := by decide

/-- Claim C2 (amended): the analysis is a pure function of the exact
extension, the file name, and the content; for every extension other than
`.txt` the file name is irrelevant, so byte-identical content under the same
non-`.txt` extension yields identical `summary`, `lines` and
`non_empty_lines` regardless of the rest of the path. -/
theorem C2_purity (ext n1 n2 content : Str) (size : Nat) (h : ext ≠ str ".txt") :
    (analyze_file_content (Except.ok content) ext n1 size).summary =
      (analyze_file_content (Except.ok content) ext n2 size).summary ∧
    (analyze_file_content (Except.ok content) ext n1 size).lines =
      (analyze_file_content (Except.ok content) ext n2 size).lines ∧
    (analyze_file_content (Except.ok content) ext n1 size).non_empty_lines =
      (analyze_file_content (Except.ok content) ext n2 size).non_empty_lines := by
  have hd := summaryDispatch_name_irrel ext n1 n2 content (pySplitNl content) h
  refine ⟨?_, rfl, rfl⟩
  rw [analyze_summary_eq, analyze_summary_eq, hd]

/-- Witness for C2: a `.py` analysis is identical under two different file
names. -/
theorem C2_witness :
    (str ".py" ≠ str ".txt") ∧
    (analyze_file_content (Except.ok (str "x = 1")) (str ".py") (str "a.py") 5).summary =
      (analyze_file_content (Except.ok (str "x = 1")) (str ".py") (str "b.py") 5).summary :=
  ⟨by decide,
    (C2_purity (str ".py") (str "a.py") (str "b.py") (str "x = 1") 5 (by decide)).1⟩

/-- Claim C3 as stated is false: a `.py` file whose content is six double
quotes (an empty leading docstring) yields the empty brief. -/
theorem C3_counterexample :
    get_file_brief (Except.ok (str "\"\"\"\"\"\"")) (str ".py") 50 = ([] : Str) := by decide

/-- Claim C3 (amended): for every extension outside the special-cased set,
`get_file_brief` returns a non-empty string of length at most 50 under the
default `maxLength`; a special-cased extension can produce the empty brief
(e.g. an empty leading `.py` docstring). -/
theorem C3_generic_nonempty (ext content : Str)
    (h : ext ∉ [str ".py", str ".md", str ".html", str ".htm", str ".json", str ".css",
      str ".scss", str ".sass", str ".bat", str ".cmd", str ".sh", str ".bash", str ".txt"]) :
    get_file_brief (Except.ok content) ext 50 ≠ [] ∧
    (get_file_brief (Except.ok content) ext 50).length ≤ 50 := by
  simp only [get_file_brief]
  split
  · exact ⟨by decide, by decide⟩
  · rw [briefSpecific_eq_none ext (pyStrip content) 50 h]
    exact defaultBriefGo_spec (pySplitNl (pyStrip content))

/-- Witness for C3: an unknown extension yields a non-empty bounded brief. -/
theorem C3_witness :
    (str ".xyz" ∉ [str ".py", str ".md", str ".html", str ".htm", str ".json", str ".css",
      str ".scss", str ".sass", str ".bat", str ".cmd", str ".sh", str ".bash", str ".txt"]) ∧
    get_file_brief (Except.ok (str "hello")) (str ".xyz") 50 ≠ [] :=
  ⟨by decide, (C3_generic_nonempty (str ".xyz") (str "hello") (by decide)).1⟩

/-- Claim C4 as stated is false: a JSON parse failure during brief extraction
returns the fixed string `"JSON data"`, not `"Error reading"`. -/
theorem C4_counterexample :
    get_file_brief (Except.ok (str "\x7binvalid")) (str ".json") 50 = str "JSON data" ∧
    str "JSON data" ≠ str "Error reading" := ⟨by decide, by decide⟩

/-- Claim C4 (amended): `get_file_brief` never propagates an exception (it is
a total function of its inputs); a read failure returns the fixed string
`"Error reading"`, while a JSON parse failure is swallowed locally and
returns `"JSON data"` instead. -/
theorem C4_failure (e ext content : Str) (hne : pyStrip content ≠ [])
    (hp : jsonParse (pyStrip content) = none) :
    get_file_brief (Except.error e) ext 50 = str "Error reading" ∧
    get_file_brief (Except.ok content) (str ".json") 50 = str "JSON data" := by
  refine ⟨rfl, ?_⟩
  simp only [get_file_brief]
  rw [if_neg hne, briefSpecific_json]
  unfold briefJson
  rw [hp]

/-- Witness for C4: a concrete read failure and a concrete malformed JSON. -/
theorem C4_witness :
    get_file_brief (Except.error (str "boom")) (str ".py") 50 = str "Error reading" ∧
    get_file_brief (Except.ok (str "\x7bbad")) (str ".json") 50 = str "JSON data" :=
  C4_failure (str "boom") (str ".py") (str "\x7bbad") (by decide) rfl

/-- Claim C5: a read failure yields the all-zero record with the
`"Error analyzing file: <cause>"` summary, and a JSON parse failure yields
the non-empty fixed summary `"JSON data file"`; no exception escapes (the
embedded function is total). -/
theorem C5_failure_semantics :
    (∀ (e ext name : Str) (size : Nat),
      analyze_file_content (Except.error e) ext name size =
        ⟨0, 0, 0, str "Error analyzing file: " ++ e⟩) ∧
    (∀ (content name : Str) (size : Nat), jsonParse content = none →
      (analyze_file_content (Except.ok content) (str ".json") name size).summary =
        str "JSON data file") := by
  constructor
  · intro e ext name size
    rfl
  · intro content name size hp
    have hj : jsonSummary content = str "JSON data file" := by
      unfold jsonSummary
      rw [hp]
    rw [analyze_summary_eq, summaryDispatch_json, hj, if_neg (by decide)]

/-- Witness for C5: a concrete read failure and a concrete malformed JSON. -/
theorem C5_witness :
    analyze_file_content (Except.error (str "oops")) (str ".md") (str "a.md") 3 =
      ⟨0, 0, 0, str "Error analyzing file: " ++ str "oops"⟩ ∧
    (analyze_file_content (Except.ok (str "not json")) (str ".json") (str "a.json") 8).summary =
      str "JSON data file" :=
  ⟨C5_failure_semantics.1 (str "oops") (str ".md") (str "a.md") 3,
    C5_failure_semantics.2 (str "not json") (str "a.json") 8 rfl⟩

/-! ### Claims C6-C10 -/

/-- Claim C6: the concrete manifest content yields exactly
`"Package manifest: x v1.0"`, and in general a parsed JSON object containing
the keys `name`, `version` and `dependencies` yields
`"Package manifest: <name> v<version>"`. -/
theorem C6_manifest :
    (∀ (name : Str) (size : Nat),
      (analyze_file_content (Except.ok pkgJson) (str ".json") name size).summary =
        str "Package manifest: x v1.0") ∧
    (∀ (content name : Str) (size : Nat) (kvs : List (Str × Json)),
      jsonParse content = some (Json.obj kvs) →
      (str "name") ∈ kvs.map Prod.fst →
      (str "version") ∈ kvs.map Prod.fst →
      (str "dependencies") ∈ kvs.map Prod.fst →
      (analyze_file_content (Except.ok content) (str ".json") name size).summary =
        str "Package manifest: " ++
          pyStrJson (pyDictGet kvs (str "name") (Json.jstr (str "unknown"))) ++
          str " v" ++ pyStrJson (pyDictGet kvs (str "version") (Json.jstr (str "?")))) := by
  constructor
  · intro name size
    rfl
  · intro content name size kvs hp h1 h2 h3
    have hj : jsonSummary content =
        str "Package manifest: " ++
          pyStrJson (pyDictGet kvs (str "name") (Json.jstr (str "unknown"))) ++
          str " v" ++ pyStrJson (pyDictGet kvs (str "version") (Json.jstr (str "?"))) := by
      unfold jsonSummary
      rw [hp]
      exact if_pos ⟨h1, h2, h3⟩
    have hne : str "Package manifest: " ++
        pyStrJson (pyDictGet kvs (str "name") (Json.jstr (str "unknown"))) ++
        str " v" ++ pyStrJson (pyDictGet kvs (str "version") (Json.jstr (str "?"))) ≠ [] := by
      intro hh
      have hlen := congrArg List.length hh
      simp only [List.length_append, List.length_nil] at hlen
      have h18 : (str "Package manifest: ").length = 18 := rfl
      omega
    rw [analyze_summary_eq, summaryDispatch_json, hj, if_neg hne]

/-- Witness for C6: the concrete manifest parses to the three-key object and
the general statement instantiates on it. -/
theorem C6_witness :
    jsonParse pkgJson = some (Json.obj [(str "name", Json.jstr (str "x")),
      (str "version", Json.jstr (str "1.0")), (str "dependencies", Json.obj [])]) ∧
    (analyze_file_content (Except.ok pkgJson) (str ".json") (str "package.json") 46).summary =
      str "Package manifest: " ++
        pyStrJson (pyDictGet [(str "name", Json.jstr (str "x")),
          (str "version", Json.jstr (str "1.0")), (str "dependencies", Json.obj [])]
          (str "name") (Json.jstr (str "unknown"))) ++
        str " v" ++ pyStrJson (pyDictGet [(str "name", Json.jstr (str "x")),
          (str "version", Json.jstr (str "1.0")), (str "dependencies", Json.obj [])]
          (str "version") (Json.jstr (str "?"))) :=
  ⟨rfl,
    C6_manifest.2 pkgJson (str "package.json") 46
      [(str "name", Json.jstr (str "x")), (str "version", Json.jstr (str "1.0")),
        (str "dependencies", Json.obj [])]
      rfl (by decide) (by decide) (by decide)⟩

/-- Claim C7: for the markdown content `"# Title\n- [ ] a\n- [x] b\n"` the
summary contains the substring `"(1/2 completed)"`: one checked box over one
checked plus one open. -/
theorem C7_tasklist (name : Str) (size : Nat) :
    isSubstr (str "(1/2 completed)")
      ((analyze_file_content (Except.ok mdC7) (str ".md") name size).summary) = true := rfl

/-- Claim C8: for content joined from `k ≥ 1` non-empty, non-whitespace,
newline-free lines, the analysis reports `lines = k` and
`non_empty_lines = k`; empty content yields `lines = 1` (pure split). -/
theorem C8_line_counts (ext name : Str) (size : Nat) (pieces : List Str)
    (hne : pieces ≠ [])
    (h : ∀ p ∈ pieces, pyStrip p ≠ [] ∧ '\n' ∉ p) :
    ((analyze_file_content (Except.ok (joinSep (str "\n") pieces)) ext name size).lines =
        pieces.length ∧
      (analyze_file_content (Except.ok (joinSep (str "\n") pieces)) ext name
          size).non_empty_lines = pieces.length) ∧
    (analyze_file_content (Except.ok ([] : Str)) ext name size).lines = 1 := by
  have hsplit := pySplitNl_join pieces hne (fun p hp => (h p hp).2)
  refine ⟨⟨?_, ?_⟩, rfl⟩
  · rw [analyze_lines_eq, hsplit]
  · rw [analyze_nonempty_eq, hsplit]
    have hfilter : pieces.filter (fun l => !(pyStrip l).isEmpty) = pieces := by
      apply List.filter_eq_self.mpr
      intro a ha
      have hps := (h a ha).1
      rcases hq : pyStrip a with _ | ⟨c, cs⟩
      · exact absurd hq hps
      · simp [hq]
    rw [hfilter]

/-- Witness for C8: two-line content counts two lines, both non-empty. -/
theorem C8_witness :
    ([str "a", str "b"] ≠ ([] : List Str)) ∧
    (analyze_file_content (Except.ok (joinSep (str "\n") [str "a", str "b"])) (str ".py")
        (str "a.py") 3).lines = 2 ∧
    (analyze_file_content (Except.ok (joinSep (str "\n") [str "a", str "b"])) (str ".py")
        (str "a.py") 3).non_empty_lines = 2 := by
  have h := C8_line_counts (str ".py") (str "a.py") 3 [str "a", str "b"] (by decide)
    (by
      intro p hp
      simp only [List.mem_cons, List.not_mem_nil, or_false] at hp
      rcases hp with rfl | rfl <;> exact ⟨by decide, by decide⟩)
  exact ⟨by decide, h.1.1, h.1.2⟩

/-- Claim C9 as stated is false: the `.js` content
`export const defaultColor = 1` contains no default export, yet its summary
carries the `(default)` suffix, because the code tests for the substring
`default` anywhere in the content. -/
theorem C9_counterexample :
    isSubstr (str "(default)")
      ((analyze_file_content (Except.ok cexC9) (str ".js") (str "a.js") 29).summary) = true ∧
    specHasDefaultExport cexC9 = false := ⟨by decide, by decide⟩

/-- Claim C9 (amended): when the named-export pattern matches at least one
name, the export fragment carries the `(default)` suffix exactly when the
substring `default` occurs anywhere in the content — in which case only the
first exported name is listed — and otherwise lists up to 3 exported names;
the fragment is one of the summary parts. -/
theorem C9_exports (content e : Str) (es : List Str)
    (hexp : jsExports content = e :: es) :
    jsExportFragment content =
      some (if isSubstr (str "default") content then
          str "Exports: " ++ e ++ str " (default)"
        else str "Exports: " ++ joinSep (str ", ") (List.take 3 (e :: es))) ∧
    (∀ f, jsExportFragment content = some f → f ∈ jsSummaryParts content) := by
  constructor
  · simp only [jsExportFragment, hexp]
    split <;> rfl
  · intro f hf
    unfold jsSummaryParts
    rw [hf]
    simp

/-- Witness for C9: the counterexample content has one export and the
`default`-substring form of the fragment. -/
theorem C9_witness :
    jsExports cexC9 = [str "defaultColor"] ∧
    jsExportFragment cexC9 =
      some (str "Exports: " ++ str "defaultColor" ++ str " (default)") := by
  refine ⟨rfl, ?_⟩
  have h := (C9_exports cexC9 (str "defaultColor") [] rfl).1
  rw [h, if_pos (by decide)]

/-- Claim C10: for non-empty `.py` content with no leading-docstring match
and no first `#`-comment longer than 10 characters, the presence of the
substring `__main__` forces the brief `"Main script"`, regardless of any
`class`/`def` definitions (priority over the Defines-briefs). -/
theorem C10_main_script (content : Str)
    (hne : pyStrip content ≠ [])
    (hdoc : pyDocstringBrief (pyStrip content) 50 = none)
    (hcom : ∀ g, reSearchComment (pyStrip content) = some g → g.length ≤ 10)
    (hmain : isSubstr (str "__main__") (pyStrip content) = true) :
    get_file_brief (Except.ok content) (str ".py") 50 = str "Main script" := by
  simp only [get_file_brief]
  rw [if_neg hne]
  have hrest : briefPyRest (pyStrip content) = some (str "Main script") := by
    unfold briefPyRest
    rw [if_pos hmain]
  have hb : briefSpecific (str ".py") (pyStrip content) 50 = some (str "Main script") := by
    rcases hc : reSearchComment (pyStrip content) with _ | g
    · simp [briefSpecific, briefPy, hdoc, hc, hrest]
    · have hnl : ¬ (10 < g.length) := by
        have := hcom g hc
        omega
      simp [briefSpecific, briefPy, hdoc, hc, hnl, hrest]
  rw [hb]

/-- Witness for C10: concrete content containing a `class` definition still
yields `"Main script"`. -/
theorem C10_witness :
    isSubstr (str "class ") (pyStrip c10w) = true ∧
    get_file_brief (Except.ok c10w) (str ".py") 50 = str "Main script" := by
  refine ⟨by decide, ?_⟩
  exact C10_main_script c10w (by decide) rfl
    (fun g hg => by
      rw [show reSearchComment (pyStrip c10w) = none from rfl] at hg
      cases hg)
    (by decide)

end Summarizer
